import Mathlib

/-!
Verification development for the socks5-server repository.

The SOCKS5 codec (`src/socks5.rs`) and the per-connection proxy driver
(`src/server.rs`) are shallowly embedded here.  Byte streams are modelled
as `List Nat` of byte values; every `read_exact` of the source becomes a
pattern match / length check that fails with the I/O error message
`"failed to fill whole buffer"` (the message of the `UnexpectedEof` error
`read_exact` produces on a short read); decoders return the remaining
stream next to their `Except` result so that consumption is observable.
Machine integers are `Nat` with explicit `% 256` / `% 65536` where the
source extracts bytes; theorems carry byte-ness bounds as hypotheses where
they matter.  The `assert!(dnaddr.len() <= u8::max_value() as usize)` of
`write_domain_name_address` is modelled as the length bound carried by the
well-formedness predicate / hypotheses of the encoding theorems.
-/

deriving instance DecidableEq for Except

namespace Socks5

/-- `{:#x}` formatting used by the source's error messages. -/
def hexFmt (n : Nat) : String :=
  "0x" ++ String.mk (Nat.toDigits 16 n)

/-- Big-endian 16-bit write, as `BufMut::put_u16`. -/
def putU16 (p : Nat) : List Nat :=
  [p / 256 % 256, p % 256]

/-- Big-endian 16-bit read of the next two bytes, as `Buf::get_u16`
(callers have already bounds-checked, so the default is unreachable). -/
def getU16 : List Nat → Nat
  | p1 :: p2 :: _ => p1 * 256 + p2
  | _ => 0

/-- UTF-8 validity of a byte sequence, as checked by Rust's
`String::from_utf8` (RFC 3629: no overlongs, no surrogates,
nothing above U+10FFFF). -/
def utf8Valid : List Nat → Bool
  | [] => true
  | b :: rest =>
    if b < 0x80 then utf8Valid rest
    else if b < 0xC2 then false
    else if b < 0xE0 then
      match rest with
      | c1 :: r => decide (0x80 ≤ c1 ∧ c1 < 0xC0) && utf8Valid r
      | _ => false
    else if b < 0xF0 then
      match rest with
      | c1 :: c2 :: r =>
        let lo1 := if b = 0xE0 then 0xA0 else 0x80
        let hi1 := if b = 0xED then 0xA0 else 0xC0
        decide (lo1 ≤ c1 ∧ c1 < hi1) && decide (0x80 ≤ c2 ∧ c2 < 0xC0) && utf8Valid r
      | _ => false
    else if b < 0xF5 then
      match rest with
      | c1 :: c2 :: c3 :: r =>
        let lo1 := if b = 0xF0 then 0x90 else 0x80
        let hi1 := if b = 0xF4 then 0x90 else 0xC0
        decide (lo1 ≤ c1 ∧ c1 < hi1) && decide (0x80 ≤ c2 ∧ c2 < 0xC0)
          && decide (0x80 ≤ c3 ∧ c3 < 0xC0) && utf8Valid r
      | _ => false
    else false

/-- `Method` of `src/socks5.rs`: one byte of the authentication method list. -/
inductive Method where
  | None
  | GssApi
  | Password
  | NotAcceptable
  | InvalidMethod (c : Nat)
  deriving DecidableEq, Repr

namespace Method

/-- `Method::from_u8`. -/
def from_u8 (code : Nat) : Method :=
  match code with
  | 0x00 => Method.None
  | 0x01 => Method.GssApi
  | 0x02 => Method.Password
  | 0xff => Method.NotAcceptable
  | c => Method.InvalidMethod c

/-- `Method::is_invalid_method`. -/
def is_invalid_method : Method → Bool
  | Method.InvalidMethod _ => true
  | _ => false

/-- `Method::as_u8`. -/
def as_u8 : Method → Nat
  | Method.None => 0x00
  | Method.GssApi => 0x01
  | Method.Password => 0x02
  | Method.NotAcceptable => 0xff
  | Method.InvalidMethod c => c

end Method

/-- `Command` of `src/socks5.rs`. -/
inductive Command where
  | Connect
  | Bind
  | UdpAssociate
  deriving DecidableEq, Repr

namespace Command

/-- `Command::from_u8`. -/
def from_u8 (code : Nat) : Option Command :=
  match code with
  | 0x01 => some Command.Connect
  | 0x02 => some Command.Bind
  | 0x03 => some Command.UdpAssociate
  | _ => none

end Command

/-- `Replies` of `src/socks5.rs`: the SOCKS5 reply codes. -/
inductive Replies where
  | Succeeded
  | GeneralFailure
  | ConnectionNotAllowed
  | NetworkUnreachable
  | HostUnreachable
  | ConnectionRefused
  | TtlExpired
  | CommandNotSupported
  | AddressTypeNotSupported
  | OtherReply (c : Nat)
  deriving DecidableEq, Repr

namespace Replies

/-- `Replies::as_u8`. -/
def as_u8 : Replies → Nat
  | Replies.Succeeded => 0x00
  | Replies.GeneralFailure => 0x01
  | Replies.ConnectionNotAllowed => 0x02
  | Replies.NetworkUnreachable => 0x03
  | Replies.HostUnreachable => 0x04
  | Replies.ConnectionRefused => 0x05
  | Replies.TtlExpired => 0x06
  | Replies.CommandNotSupported => 0x07
  | Replies.AddressTypeNotSupported => 0x08
  | Replies.OtherReply c => c

end Replies

/-- `socks5::Error`: a reply code plus a message.  I/O errors convert to it
with reply `GeneralFailure` and the I/O error's message
(`impl From<io::Error> for Error`). -/
structure Error where
  reply : Replies
  message : String
  deriving DecidableEq, Repr

/-- The error a failed `read_exact` (short read) converts into. -/
def ioShortRead : Error :=
  ⟨Replies.GeneralFailure, "failed to fill whole buffer"⟩

/-- `Ipv4Addr`: four octets. -/
structure Ipv4Addr where
  o0 : Nat
  o1 : Nat
  o2 : Nat
  o3 : Nat
  deriving DecidableEq, Repr

/-- `Ipv6Addr`: eight 16-bit segments. -/
structure Ipv6Addr where
  s0 : Nat
  s1 : Nat
  s2 : Nat
  s3 : Nat
  s4 : Nat
  s5 : Nat
  s6 : Nat
  s7 : Nat
  deriving DecidableEq, Repr

/-- `SocketAddrV4`. -/
structure SocketAddrV4 where
  ip : Ipv4Addr
  port : Nat
  deriving DecidableEq, Repr

/-- `SocketAddrV6`: like the Rust type it carries `flowinfo` and `scope_id`,
which participate in equality. -/
structure SocketAddrV6 where
  ip : Ipv6Addr
  port : Nat
  flowinfo : Nat
  scope_id : Nat
  deriving DecidableEq, Repr

/-- `std::net::SocketAddr`. -/
inductive SocketAddr where
  | V4 (a : SocketAddrV4)
  | V6 (a : SocketAddrV6)
  deriving DecidableEq, Repr

/-- `Address` of `src/socks5.rs`.  A Rust `String` domain name is embedded as
its UTF-8 byte sequence. -/
inductive Address where
  | SocketAddress (sa : SocketAddr)
  | DomainNameAddress (name : List Nat) (port : Nat)
  deriving DecidableEq, Repr

/-- `AddressType` codes: `Ipv4 = 1`, `DomainName = 3`, `Ipv6 = 4`;
`AddressType::from_u8` recognises exactly these. -/
def AddressType.from_u8 (code : Nat) : Option Nat :=
  match code with
  | 1 => some 1
  | 3 => some 3
  | 4 => some 4
  | _ => none

namespace Address

/-- `Address::read_from`: reads the type byte, then the typed payload.
Returns the result next to the remaining stream. -/
def read_from (s : List Nat) : Except Error Address × List Nat :=
  match s with
  | [] => (Except.error ioShortRead, s)
  | t :: rest =>
    match AddressType.from_u8 t with
    | none =>
      (Except.error ⟨Replies.AddressTypeNotSupported,
        "not supported address type " ++ hexFmt t⟩, rest)
    | some 1 =>
      match rest with
      | b0 :: b1 :: b2 :: b3 :: p1 :: p2 :: rest2 =>
        (Except.ok (Address.SocketAddress (SocketAddr.V4
          ⟨⟨b0, b1, b2, b3⟩, p1 * 256 + p2⟩)), rest2)
      | _ => (Except.error ioShortRead, rest)
    | some 4 =>
      match rest with
      | a0 :: a1 :: b0 :: b1 :: c0 :: c1 :: d0 :: d1 ::
        e0 :: e1 :: f0 :: f1 :: g0 :: g1 :: h0 :: h1 :: p1 :: p2 :: rest2 =>
        (Except.ok (Address.SocketAddress (SocketAddr.V6
          ⟨⟨a0 * 256 + a1, b0 * 256 + b1, c0 * 256 + c1, d0 * 256 + d1,
            e0 * 256 + e1, f0 * 256 + f1, g0 * 256 + g1, h0 * 256 + h1⟩,
            p1 * 256 + p2, 0, 0⟩)), rest2)
      | _ => (Except.error ioShortRead, rest)
    | some _ =>
      match rest with
      | [] => (Except.error ioShortRead, rest)
      | n :: rest2 =>
        if rest2.length < n + 2 then (Except.error ioShortRead, rest2)
        else
          if utf8Valid ((rest2.take (n + 2)).take n) then
            (Except.ok (Address.DomainNameAddress ((rest2.take (n + 2)).take n)
              (getU16 ((rest2.take (n + 2)).drop n))), rest2.drop (n + 2))
          else
            (Except.error ⟨Replies.GeneralFailure, "invalid address encoding"⟩,
              rest2.drop (n + 2))

/-- `Address::to_bytes` via `write_address`: type byte, payload, big-endian
port.  The domain length byte is `name.length % 256` (`len as u8`); the
source's `assert!` that the length fits a byte appears as a hypothesis of
the round-trip theorems. -/
def to_bytes : Address → List Nat
  | Address.SocketAddress (SocketAddr.V4 a) =>
    1 :: [a.ip.o0, a.ip.o1, a.ip.o2, a.ip.o3] ++ putU16 a.port
  | Address.SocketAddress (SocketAddr.V6 a) =>
    4 :: (putU16 a.ip.s0 ++ putU16 a.ip.s1 ++ putU16 a.ip.s2 ++ putU16 a.ip.s3 ++
      putU16 a.ip.s4 ++ putU16 a.ip.s5 ++ putU16 a.ip.s6 ++ putU16 a.ip.s7 ++
      putU16 a.port)
  | Address.DomainNameAddress name port =>
    3 :: name.length % 256 :: name ++ putU16 port

/-- The values of the embedded `Address` type that correspond to values
constructible in the Rust program: octets are bytes, segments and ports are
16-bit, a domain name is a valid UTF-8 byte string, and — per the data-model
invariant of the spec and the `assert!` in `write_domain_name_address` — a
domain name fits the one-byte length field.  `flowinfo` and `scope_id` of an
IPv6 address are arbitrary (`u32` in Rust). -/
def constructible : Address → Prop
  | Address.SocketAddress (SocketAddr.V4 ⟨⟨o0, o1, o2, o3⟩, port⟩) =>
    o0 < 256 ∧ o1 < 256 ∧ o2 < 256 ∧ o3 < 256 ∧ port < 65536
  | Address.SocketAddress (SocketAddr.V6 ⟨⟨s0, s1, s2, s3, s4, s5, s6, s7⟩,
      port, _flowinfo, _scope_id⟩) =>
    s0 < 65536 ∧ s1 < 65536 ∧ s2 < 65536 ∧ s3 < 65536 ∧
    s4 < 65536 ∧ s5 < 65536 ∧ s6 < 65536 ∧ s7 < 65536 ∧ port < 65536
  | Address.DomainNameAddress name port =>
    (∀ b ∈ name, b < 256) ∧ name.length ≤ 255 ∧ utf8Valid name = true ∧
    port < 65536

instance : DecidablePred constructible
  | Address.SocketAddress (SocketAddr.V4 ⟨⟨o0, o1, o2, o3⟩, port⟩) =>
    inferInstanceAs (Decidable (o0 < 256 ∧ o1 < 256 ∧ o2 < 256 ∧ o3 < 256 ∧
      port < 65536))
  | Address.SocketAddress (SocketAddr.V6 ⟨⟨s0, s1, s2, s3, s4, s5, s6, s7⟩,
      port, _flowinfo, _scope_id⟩) =>
    inferInstanceAs (Decidable (s0 < 65536 ∧ s1 < 65536 ∧ s2 < 65536 ∧
      s3 < 65536 ∧ s4 < 65536 ∧ s5 < 65536 ∧ s6 < 65536 ∧ s7 < 65536 ∧
      port < 65536))
  | Address.DomainNameAddress name port =>
    inferInstanceAs (Decidable ((∀ b ∈ name, b < 256) ∧ name.length ≤ 255 ∧
      utf8Valid name = true ∧ port < 65536))

end Address

/-- `TcpRequestHeader`: command + destination address. -/
structure TcpRequestHeader where
  command : Command
  address : Address
  deriving DecidableEq, Repr

namespace TcpRequestHeader

/-- `TcpRequestHeader::read_from`: three header bytes (version, command,
reserved) read at once, then the address.  Version ≠ 5 fails with
`ConnectionRefused`; an unrecognised command with `CommandNotSupported`;
address errors propagate unchanged. -/
def read_from (s : List Nat) : Except Error TcpRequestHeader × List Nat :=
  match s with
  | v :: c :: _r :: rest =>
    if v ≠ 5 then
      (Except.error ⟨Replies.ConnectionRefused,
        "unsupported socks version " ++ hexFmt v⟩, rest)
    else
      match Command.from_u8 c with
      | none =>
        (Except.error ⟨Replies.CommandNotSupported,
          "unsupported command " ++ hexFmt c⟩, rest)
      | some command =>
        match Address.read_from rest with
        | (Except.error e, rest2) => (Except.error e, rest2)
        | (Except.ok address, rest2) =>
          (Except.ok ⟨command, address⟩, rest2)
  | _ => (Except.error ioShortRead, s)

end TcpRequestHeader

/-- `TcpResponseHeader`: reply code + bound address. -/
structure TcpResponseHeader where
  reply : Replies
  address : Address
  deriving DecidableEq, Repr

/-- `TcpResponseHeader::to_bytes`: version, reply byte, reserved 0,
encoded address. -/
def TcpResponseHeader.to_bytes (h : TcpResponseHeader) : List Nat :=
  5 :: h.reply.as_u8 % 256 :: 0 :: h.address.to_bytes

/-- `AuthenticationRequest`: the decoded method list. -/
structure AuthenticationRequest where
  methods : List Method
  deriving DecidableEq, Repr

namespace AuthenticationRequest

/-- `AuthenticationRequest::read_from`: version byte (must be 5, else an
`InvalidData` I/O error), method-count byte, that many method bytes; each
byte maps through `Method::from_u8` and `InvalidMethod` entries are
filtered out.  Its Rust error type is `io::Error`, embedded as the
error message string. -/
def read_from (s : List Nat) : Except String AuthenticationRequest × List Nat :=
  match s with
  | v :: n :: rest =>
    if v ≠ 5 then
      (Except.error ("unsupported socks version " ++ hexFmt v), rest)
    else if rest.length < n then
      (Except.error "failed to fill whole buffer", rest)
    else
      (Except.ok ⟨((rest.take n).map Method.from_u8).filter
        (fun m => !m.is_invalid_method)⟩, rest.drop n)
  | _ => (Except.error "failed to fill whole buffer", s)

/-- `AuthenticationRequest::required_authentication`. -/
def required_authentication (r : AuthenticationRequest) : Bool :=
  !(r.methods.contains Method.None)

end AuthenticationRequest

/-- `AuthenticationResponse::to_bytes`: version byte then the chosen
method's byte. -/
def AuthenticationResponse.to_bytes (method : Method) : List Nat :=
  [5, method.as_u8 % 256]

end Socks5

namespace Server

open Socks5

/-- An IP address, the result of name resolution. -/
inductive IpAddr where
  | V4 (a : Ipv4Addr)
  | V6 (a : Ipv6Addr)
  deriving DecidableEq, Repr

/-- The per-connection environment: the client's peer address, the outcome
of DNS resolution (`Server::lookup`: first resolved address, or none), and
whether an outbound TCP connect to a given address succeeds. -/
structure Env where
  peerAddr : SocketAddr
  resolveIp : List Nat → Option IpAddr
  connectOk : SocketAddr → Bool

/-- Observable events of one run of `Server::proxy`: bytes written to the
client (`Server::write`, which flushes), the attempt to read a
`TcpRequestHeader`, a name-resolution attempt, an outbound TCP connect
attempt, and the start of the relay phase. -/
inductive Event where
  | write (bs : List Nat)
  | readRequest
  | resolveName (name : List Nat)
  | connectTo (sa : SocketAddr)
  | relay
  deriving DecidableEq, Repr

/-- Modelled from the spec: `resolve(address) -> SocketAddress` (§4.1) used
by `Server::proxy` as `addr.lookup(Self::lookup)`, whose body is in the
`socks5` protocol crate and not under `src/`.  Per the spec it is the
identity for `SocketAddress`; for a `DomainName` it performs name
resolution for the given port and returns the first result, or fails
(`HostUnreachable`-equivalent) when resolution yields nothing.  Returns the
resolution events it caused. -/
def Address.lookup (env : Env) :
    Address → (Except Error SocketAddr × List Event)
  | Address.SocketAddress sa => (Except.ok sa, [])
  | Address.DomainNameAddress name port =>
    match env.resolveIp name with
    | some (IpAddr.V4 ip) =>
      (Except.ok (SocketAddr.V4 ⟨ip, port⟩), [Event.resolveName name])
    | some (IpAddr.V6 ip) =>
      (Except.ok (SocketAddr.V6 ⟨ip, port, 0, 0⟩), [Event.resolveName name])
    | none =>
      (Except.error ⟨Replies.HostUnreachable, "no address found"⟩,
        [Event.resolveName name])

/-- `Server::proxy` of `src/server.rs`: the per-connection driver.
Returns the event trace and whether the run ended in `Ok`.

Control flow, faithful to the source: read the authentication request
(an error aborts with nothing written); write the authentication response
(`NotAcceptable` when `required_authentication`, else no-auth) and
continue; read the `TcpRequestHeader` (on error, write a response carrying
the error's reply and the client's peer address, then abort); dispatch on
the command: `Connect` resolves the address (on error, write a response
with the error's reply and the requested address, abort), attempts the
outbound connect (on success write `Succeeded` with the resolved address
and relay; on failure return the error — nothing further is written);
`Bind`/`UdpAssociate` write `CommandNotSupported` with the requested
address. -/
def proxy (env : Env) (input : List Nat) : List Event × Bool :=
  match AuthenticationRequest.read_from input with
  | (Except.error _, _) => ([], false)
  | (Except.ok authReq, s1) =>
    let authResp :=
      if authReq.required_authentication then
        AuthenticationResponse.to_bytes Method.NotAcceptable
      else
        AuthenticationResponse.to_bytes Method.None
    let ev0 := [Event.write authResp, Event.readRequest]
    match TcpRequestHeader.read_from s1 with
    | (Except.error e, _) =>
      (ev0 ++ [Event.write (TcpResponseHeader.to_bytes
        ⟨e.reply, Address.SocketAddress env.peerAddr⟩)], false)
    | (Except.ok header, _s2) =>
      let addr := header.address
      match header.command with
      | Command.Connect =>
        match Address.lookup env addr with
        | (Except.error e, evs) =>
          (ev0 ++ evs ++ [Event.write (TcpResponseHeader.to_bytes
            ⟨e.reply, addr⟩)], false)
        | (Except.ok destAddr, evs) =>
          if env.connectOk destAddr then
            (ev0 ++ evs ++ [Event.connectTo destAddr,
              Event.write (TcpResponseHeader.to_bytes
                ⟨Replies.Succeeded, Address.SocketAddress destAddr⟩),
              Event.relay], true)
          else
            (ev0 ++ evs ++ [Event.connectTo destAddr], false)
      | _ =>
        (ev0 ++ [Event.write (TcpResponseHeader.to_bytes
          ⟨Replies.CommandNotSupported, addr⟩)], true)

end Server

namespace Socks5

/-- `Method::from_u8` maps every byte outside the four canonical codes to
`InvalidMethod` carrying that byte. -/
theorem method_from_u8_other (b : Nat) (h0 : b ≠ 0) (h1 : b ≠ 1) (h2 : b ≠ 2)
    (h255 : b ≠ 255) : Method.from_u8 b = Method.InvalidMethod b := by
  unfold Method.from_u8
  split <;> simp_all

/-- `Command::from_u8` rejects every code outside 1, 2, 3. -/
theorem command_from_u8_none (c : Nat) (h1 : c ≠ 1) (h2 : c ≠ 2) (h3 : c ≠ 3) :
    Command.from_u8 c = none := by
  unfold Command.from_u8
  split <;> simp_all

/-- `AddressType::from_u8` rejects every code outside 1, 3, 4. -/
theorem addresstype_from_u8_none (b : Nat) (h1 : b ≠ 1) (h3 : b ≠ 3)
    (h4 : b ≠ 4) : AddressType.from_u8 b = none := by
  unfold AddressType.from_u8
  split <;> simp_all

/-- `as_u8 ∘ from_u8` is the identity on every natural number code. -/
theorem method_roundtrip_all (b : Nat) : (Method.from_u8 b).as_u8 = b := by
  unfold Method.from_u8
  split <;> simp [Method.as_u8]

/-- `Method::from_u8` yields `None` (the no-auth method) exactly on byte 0. -/
theorem from_u8_eq_none (b : Nat) : Method.from_u8 b = Method.None ↔ b = 0 := by
  unfold Method.from_u8
  split <;> simp_all

/-- The decoded-and-filtered method list of `AuthenticationRequest::read_from`
contains the `None` method exactly when byte 0 was offered. -/
theorem contains_none_filter (ms : List Nat) :
    ((((ms.map Method.from_u8).filter fun m => !m.is_invalid_method).contains
      Method.None) = true) ↔ 0 ∈ ms := by
  induction ms with
  | nil => simp
  | cons b tl ih =>
    by_cases hb0 : b = 0
    · subst hb0
      simp [Method.from_u8, Method.is_invalid_method, List.contains]
    · have hne : Method.from_u8 b ≠ Method.None := by
        simpa [from_u8_eq_none] using hb0
      have hmem : (0 ∈ b :: tl) ↔ 0 ∈ tl := by
        simp only [List.mem_cons, or_iff_right_iff_imp]
        intro h
        exact absurd h.symm hb0
      rw [hmem, ← ih]
      cases hm : Method.from_u8 b with
      | None => exact absurd hm hne
      | GssApi => simp [hm, Method.is_invalid_method, List.contains, List.elem]
      | Password =>
        simp [hm, Method.is_invalid_method, List.contains, List.elem]
      | NotAcceptable =>
        simp [hm, Method.is_invalid_method, List.contains, List.elem]
      | InvalidMethod c => simp [hm, Method.is_invalid_method]

/-- C4: for every byte 0–255, `Method::from_u8` followed by `Method::as_u8`
returns the byte again; the four canonical codes 0x00, 0x01, 0x02, 0xff map
to their named variants, and every other byte is preserved through the
catch-all `InvalidMethod` variant. -/
theorem method_byte_roundtrip :
    (Method.from_u8 0x00 = Method.None ∧ Method.from_u8 0x01 = Method.GssApi ∧
     Method.from_u8 0x02 = Method.Password ∧
     Method.from_u8 0xff = Method.NotAcceptable) ∧
    (∀ b : Nat, b < 256 → (Method.from_u8 b).as_u8 = b) ∧
    (∀ b : Nat, b < 256 → b ≠ 0 → b ≠ 1 → b ≠ 2 → b ≠ 255 →
      Method.from_u8 b = Method.InvalidMethod b) := by
  refine ⟨⟨rfl, rfl, rfl, rfl⟩, ?_, ?_⟩
  · intro b _
    exact method_roundtrip_all b
  · intro b _ h0 h1 h2 h255
    exact method_from_u8_other b h0 h1 h2 h255

/-- C4 witness: byte 7 round-trips through the catch-all variant. -/
theorem method_byte_roundtrip_witness :
    (Method.from_u8 7).as_u8 = 7 ∧ Method.from_u8 7 = Method.InvalidMethod 7 :=
  ⟨method_byte_roundtrip.2.1 7 (by decide),
   method_byte_roundtrip.2.2 7 (by decide) (by decide) (by decide) (by decide)
     (by decide)⟩

/-- C5: for every decoded `AuthenticationRequest`,
`required_authentication()` returns false if and only if method byte 0
(no-auth) was among the offered bytes, whatever else was offered. -/
theorem required_authentication_iff (ms : List Nat) (hb : ∀ b ∈ ms, b < 256)
    (hn : ms.length < 256) (r : AuthenticationRequest)
    (hr : (AuthenticationRequest.read_from (5 :: ms.length :: ms)).1 =
      Except.ok r) :
    (r.required_authentication = false ↔ 0 ∈ ms) := by
  unfold AuthenticationRequest.read_from at hr
  simp [List.take_length] at hr
  subst hr
  unfold AuthenticationRequest.required_authentication
  simp only [Bool.not_eq_false', Bool.not_eq_true]
  rw [← contains_none_filter ms]

/-- C5 witness: offering Password then NoAuth does not require
authentication. -/
theorem required_authentication_iff_witness :
    ((⟨[Method.Password, Method.None]⟩ :
      AuthenticationRequest).required_authentication = false ↔ 0 ∈ [2, 0]) :=
  required_authentication_iff [2, 0] (by decide) (by decide) _ (by decide)

/-- C6: an address-type byte outside 1, 3, 4 makes `Address::read_from` fail
with a `ProtocolError` carrying `AddressTypeNotSupported`, and the remaining
stream is exactly the input after the type byte — no payload is consumed. -/
theorem address_type_unsupported (b : Nat) (hb : b < 256) (h1 : b ≠ 1)
    (h3 : b ≠ 3) (h4 : b ≠ 4) (rest : List Nat) :
    Address.read_from (b :: rest) =
      (Except.error ⟨Replies.AddressTypeNotSupported,
        "not supported address type " ++ hexFmt b⟩, rest) := by
  simp only [Address.read_from, addresstype_from_u8_none b h1 h3 h4]

/-- C6 witness: type byte 5 is rejected and the two payload bytes remain
unread. -/
theorem address_type_unsupported_witness :
    Address.read_from (5 :: [9, 9]) =
      (Except.error ⟨Replies.AddressTypeNotSupported,
        "not supported address type " ++ hexFmt 5⟩, [9, 9]) :=
  address_type_unsupported 5 (by decide) (by decide) (by decide) (by decide)
    [9, 9]

/-- C7: `TcpRequestHeader::read_from` fails with `ConnectionRefused` when the
version byte is not 5; with `CommandNotSupported` when the version is 5 but
the command byte is outside 1, 2, 3; and when both bytes are valid, an error
of the address decode is returned unchanged, reply code included. -/
theorem tcp_request_header_error_mapping :
    (∀ (v c r : Nat) (rest : List Nat), v < 256 → v ≠ 5 →
      TcpRequestHeader.read_from (v :: c :: r :: rest) =
        (Except.error ⟨Replies.ConnectionRefused,
          "unsupported socks version " ++ hexFmt v⟩, rest)) ∧
    (∀ (c r : Nat) (rest : List Nat), c < 256 → c ≠ 1 → c ≠ 2 → c ≠ 3 →
      TcpRequestHeader.read_from (5 :: c :: r :: rest) =
        (Except.error ⟨Replies.CommandNotSupported,
          "unsupported command " ++ hexFmt c⟩, rest)) ∧
    (∀ (c r : Nat) (rest rest2 : List Nat) (cmd : Command) (e : Error),
      Command.from_u8 c = some cmd →
      Address.read_from rest = (Except.error e, rest2) →
      TcpRequestHeader.read_from (5 :: c :: r :: rest) =
        (Except.error e, rest2)) := by
  refine ⟨?_, ?_, ?_⟩
  · intro v c r rest _hv hv5
    simp [TcpRequestHeader.read_from, hv5]
  · intro c r rest _hc h1 h2 h3
    simp [TcpRequestHeader.read_from, command_from_u8_none c h1 h2 h3]
  · intro c r rest rest2 cmd e hcmd haddr
    simp [TcpRequestHeader.read_from, hcmd, haddr]

/-- C7 witness: version 4 is refused; command 9 is not supported; a CONNECT
whose address-type byte is 7 propagates `AddressTypeNotSupported`. -/
theorem tcp_request_header_error_mapping_witness :
    TcpRequestHeader.read_from [4, 1, 0] =
      (Except.error ⟨Replies.ConnectionRefused,
        "unsupported socks version " ++ hexFmt 4⟩, []) ∧
    TcpRequestHeader.read_from [5, 9, 0] =
      (Except.error ⟨Replies.CommandNotSupported,
        "unsupported command " ++ hexFmt 9⟩, []) ∧
    TcpRequestHeader.read_from [5, 1, 0, 7] =
      (Except.error ⟨Replies.AddressTypeNotSupported,
        "not supported address type " ++ hexFmt 7⟩, []) :=
  ⟨tcp_request_header_error_mapping.1 4 1 0 [] (by decide) (by decide),
   tcp_request_header_error_mapping.2.1 9 0 [] (by decide) (by decide)
     (by decide) (by decide),
   tcp_request_header_error_mapping.2.2 1 0 [7] [] Command.Connect _
     (by decide) (by decide)⟩

/-- C9: a domain-name address (type byte 3) declaring length `n` but
followed by fewer than `n + 2` bytes makes `Address::read_from` fail with
the I/O error of the failed exact-length read; it never returns an address
built from a truncated name. -/
theorem domain_truncated_io_error (n : Nat) (hn : n < 256) (data : List Nat)
    (hshort : data.length < n + 2) :
    (Address.read_from (3 :: n :: data)).1 = Except.error ioShortRead := by
  simp only [Address.read_from, AddressType.from_u8]
  simp [hshort]

/-- C9 witness: declared length 5 with only two bytes available fails as a
short read. -/
theorem domain_truncated_io_error_witness :
    (Address.read_from (3 :: 5 :: [1, 2])).1 = Except.error ioShortRead :=
  domain_truncated_io_error 5 (by decide) [1, 2] (by decide)

/-- C10: every IPv6 socket address produced by `Address::read_from` has
`flowinfo = 0` and `scope_id = 0`. -/
theorem decoded_ipv6_zero_flow_scope (s : List Nat) (a : SocketAddrV6)
    (rest : List Nat)
    (h : Address.read_from s =
      (Except.ok (Address.SocketAddress (SocketAddr.V6 a)), rest)) :
    a.flowinfo = 0 ∧ a.scope_id = 0 := by
  unfold Address.read_from at h
  repeat' split at h
  all_goals simp only [Prod.mk.injEq] at h
  all_goals obtain ⟨h1, h2⟩ := h
  all_goals cases h1
  all_goals exact ⟨rfl, rfl⟩

/-- C10 witness: decoding a concrete IPv6 wire address yields zero
`flowinfo` and `scope_id`. -/
theorem decoded_ipv6_zero_flow_scope_witness :
    (⟨⟨0, 0, 0, 0, 0, 0, 0, 0⟩, 80, 0, 0⟩ : SocketAddrV6).flowinfo = 0 ∧
    (⟨⟨0, 0, 0, 0, 0, 0, 0, 0⟩, 80, 0, 0⟩ : SocketAddrV6).scope_id = 0 :=
  decoded_ipv6_zero_flow_scope
    [4, 0, 0, 0, 0, 0, 0, 0, 0, 0, 0, 0, 0, 0, 0, 0, 0, 0, 80]
    ⟨⟨0, 0, 0, 0, 0, 0, 0, 0⟩, 80, 0, 0⟩ [] (by decide)

/-- C3 counterexample: a constructible IPv6 `Address` with nonzero
`flowinfo` does not round-trip — decoding the encoded bytes rebuilds the
socket address with `flowinfo = 0`, a different value.  This refutes the
claim as stated over all constructible addresses. -/
theorem address_roundtrip_flowinfo_cex :
    Address.constructible (Address.SocketAddress (SocketAddr.V6
      ⟨⟨0, 0, 0, 0, 0, 0, 0, 1⟩, 80, 1, 0⟩)) ∧
    (Address.read_from (Address.SocketAddress (SocketAddr.V6
        ⟨⟨0, 0, 0, 0, 0, 0, 0, 1⟩, 80, 1, 0⟩)).to_bytes).1 ≠
      Except.ok (Address.SocketAddress (SocketAddr.V6
        ⟨⟨0, 0, 0, 0, 0, 0, 0, 1⟩, 80, 1, 0⟩)) := by
  constructor <;> decide

/-- C3 (amended): for every constructible `Address` whose IPv6 socket
addresses carry `flowinfo = 0` and `scope_id = 0`, decoding the bytes
produced by encoding it yields the same value (and consumes exactly the
encoded bytes). -/
theorem address_roundtrip (a : Address) (hc : a.constructible)
    (hflow : ∀ x, a = Address.SocketAddress (SocketAddr.V6 x) →
      x.flowinfo = 0 ∧ x.scope_id = 0) :
    Address.read_from a.to_bytes = (Except.ok a, []) := by
  cases a with
  | SocketAddress sa =>
    cases sa with
    | V4 v =>
      obtain ⟨⟨o0, o1, o2, o3⟩, p⟩ := v
      obtain ⟨ho0, ho1, ho2, ho3, hp⟩ := hc
      simp [Address.to_bytes, putU16, Address.read_from, AddressType.from_u8]
      omega
    | V6 v =>
      obtain ⟨fl, sc⟩ := hflow v rfl
      obtain ⟨⟨s0, s1, s2, s3, s4, s5, s6, s7⟩, p, flow, scope⟩ := v
      simp only at fl sc
      subst fl
      subst sc
      obtain ⟨h0, h1, h2, h3, h4, h5, h6, h7, hp⟩ := hc
      simp [Address.to_bytes, putU16, Address.read_from, AddressType.from_u8]
      omega
  | DomainNameAddress name p =>
    obtain ⟨hb, hlen, hutf, hp⟩ := hc
    simp only [Address.to_bytes, putU16]
    rw [Nat.mod_eq_of_lt (show name.length < 256 by omega)]
    simp only [Address.read_from, AddressType.from_u8, List.cons_append]
    have hlen2 : (name ++ [p / 256 % 256, p % 256]).length = name.length + 2 := by
      simp
    have htake2 : (name ++ [p / 256 % 256, p % 256]).take (name.length + 2) =
        name ++ [p / 256 % 256, p % 256] := by
      rw [← hlen2, List.take_length]
    have htakeN : (name ++ [p / 256 % 256, p % 256]).take name.length = name :=
      List.take_left name _
    have hg12 : (name ++ [p / 256 % 256, p % 256]).drop name.length =
        [p / 256 % 256, p % 256] := List.drop_left name _
    have hdrop : (name ++ [p / 256 % 256, p % 256]).drop (name.length + 2) =
        [] := by
      rw [← hlen2, List.drop_length]
    simp [getU16, hlen2, htake2, htakeN, hg12, hdrop, hutf]
    omega

/-- C3 witness: the domain address "ab":80 round-trips. -/
theorem address_roundtrip_witness :
    Address.read_from (Address.DomainNameAddress [97, 98] 80).to_bytes =
      (Except.ok (Address.DomainNameAddress [97, 98] 80), []) :=
  address_roundtrip _ (by decide) (by intro x hx; cases hx)

end Socks5

namespace Server

open Socks5

/-- C1: evaluation of `Server::proxy` at the failing input.  After a valid
no-auth handshake and a CONNECT request for 127.0.0.1:8080, when the
outbound TCP connect fails (e.g. connection refused), the run ends with
no response written after the request was read: the trace holds only the
authentication response, the request read, and the failed connect attempt —
no `TcpResponseHeader` carrying `ConnectionRefused` (or any reply) is ever
written, contradicting the claim and the spec's propagation policy. -/
theorem connect_failure_unanswered :
    proxy ⟨SocketAddr.V4 ⟨⟨10, 0, 0, 1⟩, 4000⟩, fun _ => none, fun _ => false⟩
        [5, 1, 0, 5, 1, 0, 1, 127, 0, 0, 1, 31, 144] =
      ([Event.write [5, 0], Event.readRequest,
        Event.connectTo (SocketAddr.V4 ⟨⟨127, 0, 0, 1⟩, 8080⟩)], false) := by
  decide

/-- C2 counterexample: a client offering only method 1 (GSSAPI, no no-auth)
receives the `NotAcceptable` response `[5, 255]`, after which the server
does read a `TcpRequestHeader` and even services the CONNECT — refuting
the claim that no further protocol step is performed. -/
theorem notacceptable_reads_request_cex :
    proxy ⟨SocketAddr.V4 ⟨⟨10, 0, 0, 1⟩, 4000⟩, fun _ => none, fun _ => true⟩
        [5, 1, 1, 5, 1, 0, 1, 127, 0, 0, 1, 31, 144] =
      ([Event.write [5, 255], Event.readRequest,
        Event.connectTo (SocketAddr.V4 ⟨⟨127, 0, 0, 1⟩, 8080⟩),
        Event.write [5, 0, 0, 1, 127, 0, 0, 1, 31, 144], Event.relay],
       true) ∧
    Event.readRequest ∈
      (proxy ⟨SocketAddr.V4 ⟨⟨10, 0, 0, 1⟩, 4000⟩, fun _ => none, fun _ => true⟩
        [5, 1, 1, 5, 1, 0, 1, 127, 0, 0, 1, 31, 144]).1 := by
  constructor <;> decide

/-- C2 (amended): when the authentication request decodes successfully and
its method set lacks no-auth, the server writes the authentication response
with method 0xff (`NotAcceptable`) and then — rather than closing —
proceeds to read a `TcpRequestHeader` from the connection. -/
theorem notacceptable_then_continues (env : Env) (input : List Nat)
    (req : AuthenticationRequest) (s1 : List Nat)
    (hr : AuthenticationRequest.read_from input = (Except.ok req, s1))
    (hreq : req.required_authentication = true) :
    ∃ tail : List Event,
      (proxy env input).1 =
        Event.write [5, 255] :: Event.readRequest :: tail := by
  unfold proxy
  rw [hr]
  simp only [hreq, if_true, AuthenticationResponse.to_bytes, Method.as_u8]
  norm_num
  repeat' split
  all_goals exact ⟨_, rfl⟩

/-- C2 witness: a client offering only method 2 (password). -/
theorem notacceptable_then_continues_witness :
    ∃ tail : List Event,
      (proxy ⟨SocketAddr.V4 ⟨⟨10, 0, 0, 1⟩, 4000⟩, fun _ => none,
          fun _ => true⟩ [5, 1, 2]).1 =
        Event.write [5, 255] :: Event.readRequest :: tail :=
  notacceptable_then_continues _ [5, 1, 2] ⟨[Method.Password]⟩ []
    (by decide) (by decide)

/-- C8: for every successfully decoded request whose command is `Bind` or
`UdpAssociate`, the server writes a `TcpResponseHeader` with reply
`CommandNotSupported` and the originally requested (unresolved) address,
then the run ends; no outbound connect and no name resolution ever appears
in the trace. -/
theorem bind_udp_rejected (env : Env) (input s1 s2 : List Nat)
    (req : AuthenticationRequest) (h : TcpRequestHeader)
    (hauth : AuthenticationRequest.read_from input = (Except.ok req, s1))
    (hreq : TcpRequestHeader.read_from s1 = (Except.ok h, s2))
    (hcmd : h.command = Command.Bind ∨ h.command = Command.UdpAssociate) :
    proxy env input =
      ([Event.write (if req.required_authentication then [5, 255] else [5, 0]),
        Event.readRequest,
        Event.write (TcpResponseHeader.to_bytes
          ⟨Replies.CommandNotSupported, h.address⟩)], true) ∧
    (∀ sa, Event.connectTo sa ∉ (proxy env input).1) ∧
    (∀ name, Event.resolveName name ∉ (proxy env input).1) := by
  have hmain : proxy env input =
      ([Event.write (if req.required_authentication then [5, 255] else [5, 0]),
        Event.readRequest,
        Event.write (TcpResponseHeader.to_bytes
          ⟨Replies.CommandNotSupported, h.address⟩)], true) := by
    unfold proxy
    rw [hauth]
    dsimp only
    rw [hreq]
    dsimp only
    rcases hcmd with hc | hc <;>
      rw [hc] <;>
      by_cases hra : req.required_authentication <;>
        simp [hra, AuthenticationResponse.to_bytes, Method.as_u8]
  refine ⟨hmain, ?_, ?_⟩
  · intro sa
    rw [hmain]
    simp
  · intro name
    rw [hmain]
    simp

/-- C8 witness: a BIND request for 127.0.0.1:8080 after a no-auth handshake
is answered with `CommandNotSupported` and the requested address; the trace
holds no connect and no resolution event. -/
theorem bind_udp_rejected_witness :
    proxy ⟨SocketAddr.V4 ⟨⟨10, 0, 0, 1⟩, 4000⟩, fun _ => none, fun _ => true⟩
        [5, 1, 0, 5, 2, 0, 1, 127, 0, 0, 1, 31, 144] =
      ([Event.write (if (⟨[Method.None]⟩ :
          AuthenticationRequest).required_authentication then [5, 255]
          else [5, 0]),
        Event.readRequest,
        Event.write (TcpResponseHeader.to_bytes
          ⟨Replies.CommandNotSupported, Address.SocketAddress
            (SocketAddr.V4 ⟨⟨127, 0, 0, 1⟩, 8080⟩)⟩)], true) ∧
    (∀ sa, Event.connectTo sa ∉
      (proxy ⟨SocketAddr.V4 ⟨⟨10, 0, 0, 1⟩, 4000⟩, fun _ => none,
        fun _ => true⟩ [5, 1, 0, 5, 2, 0, 1, 127, 0, 0, 1, 31, 144]).1) ∧
    (∀ name, Event.resolveName name ∉
      (proxy ⟨SocketAddr.V4 ⟨⟨10, 0, 0, 1⟩, 4000⟩, fun _ => none,
        fun _ => true⟩ [5, 1, 0, 5, 2, 0, 1, 127, 0, 0, 1, 31, 144]).1) :=
  bind_udp_rejected _ _ [5, 2, 0, 1, 127, 0, 0, 1, 31, 144] [] ⟨[Method.None]⟩
    ⟨Command.Bind, Address.SocketAddress (SocketAddr.V4 ⟨⟨127, 0, 0, 1⟩, 8080⟩)⟩
    (by decide) (by decide) (Or.inl rfl)

end Server
